import Mathlib

/-!
Shallow embedding of the call-rate-control subsystem of
`blinkpy/helpers/util.py`: the `Throttle` decorator, the `backoff_seconds`
calculator, the `BlinkException` / `BlinkAuthenticationException` error
taxonomy, and `time_to_seconds`.

Modelling notes.
* `Throttle` (lines 145-173) decorates an async callable: in the source,
  `result = method(*args, **kwargs)` creates a coroutine without executing
  the body (the sentinel `throttle_method` is itself a coroutine, so the
  wrapped `method` is an `async def`). Hence the `op` argument of `wrapper`
  below stands for the eventual outcome of awaiting that coroutine
  (`Except e a`: `Except.error` when awaiting raises), and the line
  `self.last_call = now` runs at call-initiation time, before the caller
  awaits — so the timestamp update happens whether or not `op` fails.
* `now = int(time.time())` is an integer; we model it as an arbitrary `Int`
  parameter of the call.
* `random.uniform(0, 1)` in `backoff_seconds` is an external random draw;
  it is modelled by an explicit `jitter : Rat` parameter.
* `dateutil.parser.isoparse` and `timegm(dtime.timetuple())` in
  `time_to_seconds` are external-library collaborators, passed as
  parameters; `isoparse` returns `none` exactly when the Python call
  raises `ValueError`.
-/

/-- State of a `Throttle` instance (util.py lines 148-151):
`self.throttle_time = seconds`, `self.last_call` (initialized to 0). -/
structure Throttle where
  throttle_time : Int
  last_call : Int
deriving DecidableEq

/-- `Throttle.__init__(self, seconds=10)`: sets `throttle_time := seconds`
and `last_call := 0` (the default for `seconds` is 10). -/
def initThrottle (seconds : Int) : Throttle :=
  ⟨seconds, 0⟩

/-- The sentinel coroutine `throttle_method` (lines 156-158): awaiting it
returns `None`, modelled as `Except.ok none`. -/
def throttle_method {e a : Type} : Except e (Option a) :=
  Except.ok Option.none

/-- Outcome of one invocation through the throttle `wrapper`:
`executed` records whether the branch that calls `method` was taken,
`value` is what awaiting the returned coroutine yields, and `state` is the
`Throttle` instance state after the call returns. -/
structure CallOutcome (e a : Type) where
  executed : Bool
  value : Except e (Option a)
  state : Throttle

/-- The `wrapper` closure of `Throttle.__call__` (lines 160-171):
`force = kwargs.get("force", False)`; `now = int(time.time())`;
`last_call_delta = now - self.last_call`; if
`force or last_call_delta > self.throttle_time` then the coroutine
`method(*args, **kwargs)` is created (its eventual outcome is `op`),
`self.last_call = now` is assigned, and that coroutine is returned;
otherwise the sentinel `throttle_method()` is returned and the state is
untouched. A permitted call yields `op`'s own outcome (boxed with `some`
on success, the error unchanged on failure); a throttled call yields
`Except.ok none`. -/
def wrapper {e a : Type} (self : Throttle) (force : Bool) (now : Int)
    (op : Except e a) : CallOutcome e a :=
  let last_call_delta := now - self.last_call
  if force = true ∨ last_call_delta > self.throttle_time then
    ⟨true, Except.map some op, ⟨self.throttle_time, now⟩⟩
  else
    ⟨false, throttle_method, self⟩

/-- `backoff_seconds(retry=0, default_time=1)` (lines 104-106): returns
`default_time * 2**retry + random.uniform(0, 1)`; the uniform draw is the
explicit `jitter` parameter. -/
def backoff_seconds (retry : Nat) (default_time : Rat) (jitter : Rat) : Rat :=
  default_time * 2 ^ retry + jitter

/-- `BlinkException` (lines 114-121): carries `errid` and `message`. -/
structure BlinkException where
  errid : String
  message : String
deriving DecidableEq

/-- `BlinkException.__init__(self, errcode)`: `self.errid = errcode[0]`,
`self.message = errcode[1]`, from a two-element (code, message) pair. -/
def BlinkException.ofPair (errcode : String × String) : BlinkException :=
  ⟨errcode.1, errcode.2⟩

/-- `BlinkAuthenticationException` (lines 124-125): subclass of
`BlinkException` adding nothing; the is-a relation is the
`toBlinkException` projection. -/
structure BlinkAuthenticationException extends BlinkException
deriving DecidableEq

/-- `BlinkAuthenticationException` inherits `BlinkException.__init__`
unchanged. -/
def BlinkAuthenticationException.ofPair (errcode : String × String) :
    BlinkAuthenticationException :=
  ⟨BlinkException.ofPair errcode⟩

/-- `time_to_seconds(timestamp)` (lines 50-57): try
`dtime = dateutil.parser.isoparse(timestamp)`; on `ValueError`
(`isoparse timestamp = none`) log and `return False`; otherwise
`return timegm(dtime.timetuple())`. The Python function's result is
either an int or the bool `False`, modelled as a sum. -/
def time_to_seconds {D : Type} (isoparse : String → Option D)
    (timegm_timetuple : D → Int) (timestamp : String) : Int ⊕ Bool :=
  match isoparse timestamp with
  | Option.none => Sum.inr false
  | Option.some dtime => Sum.inl (timegm_timetuple dtime)

/-- A run of one `Throttle` instance: the list of states reached by the
instance across a sequence of invocations, each invocation given by its
`force` flag, its clock reading `now`, and the wrapped coroutine's
eventual outcome. -/
def runThrottle {e a : Type} (self : Throttle)
    (calls : List (Bool × Int × Except e a)) : List Throttle :=
  List.scanl (fun st c => (wrapper st c.1 c.2.1 c.2.2).state) self calls

section Claims

/-- C1: a permitted (forced or out-of-cooldown) invocation whose wrapped
operation fails with error `err` yields exactly that error to the invoker
(neither caught nor transformed), the branch that executes the method was
taken, and `last_call` is nevertheless updated to `now` — the failing
call still consumes the cooldown window. -/
theorem throttle_error_propagates_updates_last_call {e a : Type}
    (self : Throttle) (force : Bool) (now : Int) (err : e)
    (h : force = true ∨ now - self.last_call > self.throttle_time) :
    wrapper self force now (Except.error err : Except e a) =
      ⟨true, Except.error err, ⟨self.throttle_time, now⟩⟩ := by
  unfold wrapper
  rw [if_pos h]
  rfl

/-- Witness for C1 at `throttle_time = 10`, `last_call = 0`, `now = 11`,
`force = false`, failing op. -/
theorem throttle_error_propagates_updates_last_call_witness :
    (false = true ∨ (11 : Int) - (⟨10, 0⟩ : Throttle).last_call >
      (⟨10, 0⟩ : Throttle).throttle_time) ∧
    wrapper (⟨10, 0⟩ : Throttle) false 11
        (Except.error (0 : Nat) : Except Nat Nat) =
      ⟨true, Except.error 0, ⟨10, 11⟩⟩ :=
  ⟨by decide,
   throttle_error_propagates_updates_last_call ⟨10, 0⟩ false 11 0 (by decide)⟩

/-- C2: with `force = false`, a call whose elapsed time equals the
cooldown exactly is throttled — the method is not executed, the sentinel
is returned, the state is untouched — and in general a non-forced call
executes the method iff the elapsed time strictly exceeds the cooldown. -/
theorem throttle_boundary_strict {e a : Type} (self : Throttle) (now : Int)
    (op : Except e a) (h : now - self.last_call = self.throttle_time) :
    wrapper self false now op = ⟨false, Except.ok Option.none, self⟩ ∧
    ∀ m : Int, ((wrapper self false m op).executed = true ↔
      m - self.last_call > self.throttle_time) := by
  constructor
  · unfold wrapper
    rw [if_neg]
    · rfl
    · rintro (hf | hgt)
      · exact Bool.false_ne_true hf
      · rw [h] at hgt
        exact lt_irrefl _ hgt
  · intro m
    unfold wrapper
    by_cases hgt : m - self.last_call > self.throttle_time
    · rw [if_pos (Or.inr hgt)]
      exact ⟨fun _ => hgt, fun _ => rfl⟩
    · have hcond : ¬ (false = true ∨ m - self.last_call > self.throttle_time) := by
        rintro (hf | hg)
        · exact Bool.false_ne_true hf
        · exact hgt hg
      rw [if_neg hcond]
      exact ⟨fun hf => absurd hf Bool.false_ne_true, fun hg => absurd hg hgt⟩

/-- Witness for C2 at `throttle_time = 10`, `last_call = 0`, `now = 10`. -/
theorem throttle_boundary_strict_witness :
    ((10 : Int) - (⟨10, 0⟩ : Throttle).last_call =
      (⟨10, 0⟩ : Throttle).throttle_time) ∧
    (wrapper (⟨10, 0⟩ : Throttle) false 10
        (Except.ok (7 : Nat) : Except Nat Nat) =
      ⟨false, Except.ok Option.none, ⟨10, 0⟩⟩ ∧
    ∀ m : Int, ((wrapper (⟨10, 0⟩ : Throttle) false m
        (Except.ok (7 : Nat) : Except Nat Nat)).executed = true ↔
      m - (⟨10, 0⟩ : Throttle).last_call > (⟨10, 0⟩ : Throttle).throttle_time)) :=
  ⟨by decide, throttle_boundary_strict ⟨10, 0⟩ 10 (Except.ok 7) (by decide)⟩

/-- C3: for `retry ≥ 0` and base `b > 0`, the backoff value with jitter in
[0, 1) lies in the half-open interval [b * 2 ^ retry, b * 2 ^ retry + 1). -/
theorem backoff_seconds_range (retry : Nat) (b j : Rat) (hb : 0 < b)
    (hj0 : 0 ≤ j) (hj1 : j < 1) :
    b * 2 ^ retry ≤ backoff_seconds retry b j ∧
    backoff_seconds retry b j < b * 2 ^ retry + 1 := by
  unfold backoff_seconds
  constructor <;> linarith

/-- Witness for C3 at `retry = 2`, `b = 1`, `j = 1/2`. -/
theorem backoff_seconds_range_witness :
    (0 < (1 : Rat) ∧ 0 ≤ (1 / 2 : Rat) ∧ (1 / 2 : Rat) < 1) ∧
    ((1 : Rat) * 2 ^ (2 : Nat) ≤ backoff_seconds 2 1 (1 / 2) ∧
     backoff_seconds 2 1 (1 / 2) < (1 : Rat) * 2 ^ (2 : Nat) + 1) :=
  ⟨⟨by norm_num, by norm_num, by norm_num⟩,
   backoff_seconds_range 2 1 (1 / 2) (by norm_num) (by norm_num) (by norm_num)⟩

/-- C4: a throttled invocation (`force = false`, elapsed not strictly
greater than the cooldown) does not execute the method, returns the
null sentinel, and leaves the state — in particular `last_call` —
unchanged, whatever the wrapped operation's outcome would have been. -/
theorem throttle_skip_frame {e a : Type} (self : Throttle) (now : Int)
    (op : Except e a) (h : ¬ now - self.last_call > self.throttle_time) :
    wrapper self false now op = ⟨false, Except.ok Option.none, self⟩ := by
  unfold wrapper
  rw [if_neg]
  · rfl
  · rintro (hf | hgt)
    · exact Bool.false_ne_true hf
    · exact h hgt

/-- Witness for C4 at `throttle_time = 10`, `last_call = 0`, `now = 5`. -/
theorem throttle_skip_frame_witness :
    (¬ (5 : Int) - (⟨10, 0⟩ : Throttle).last_call >
      (⟨10, 0⟩ : Throttle).throttle_time) ∧
    wrapper (⟨10, 0⟩ : Throttle) false 5
        (Except.ok (3 : Nat) : Except Nat Nat) =
      ⟨false, Except.ok Option.none, ⟨10, 0⟩⟩ :=
  ⟨by decide, throttle_skip_frame ⟨10, 0⟩ 5 (Except.ok 3) (by decide)⟩

/-- C5: a forced invocation always executes the method, whatever the
elapsed time (including zero), sets `last_call := now`, and returns the
operation's own result. -/
theorem throttle_force_executes {e a : Type} (self : Throttle) (now : Int)
    (op : Except e a) :
    wrapper self true now op =
      ⟨true, Except.map some op, ⟨self.throttle_time, now⟩⟩ := by
  unfold wrapper
  rw [if_pos (Or.inl rfl)]

/-- C6 counterexample: a fresh instance has `last_call = 0`, but the
first non-forced call is NOT executed for every configured cooldown:
with `seconds = 2000000000` and the clock at epoch `1791763200`
(2026-10-12), `elapsed = 1791763200` does not exceed the cooldown and the
call is throttled. -/
theorem first_call_cooldown_counterexample :
    (initThrottle 2000000000).last_call = 0 ∧
    (wrapper (initThrottle 2000000000) false 1791763200
      (Except.ok (0 : Nat) : Except Nat Nat)).executed = false := by
  constructor
  · rfl
  · decide

/-- C6 amended: a fresh instance has `last_call = 0`, and the first
non-forced invocation executes the method iff the clock reading strictly
exceeds the configured cooldown (so it always executes whenever the
cooldown is smaller than the current epoch time, but not for a cooldown
at or above it). -/
theorem first_call_executes_iff_now_gt_cooldown {e a : Type}
    (seconds now : Int) (op : Except e a) :
    (initThrottle seconds).last_call = 0 ∧
    ((wrapper (initThrottle seconds) false now op).executed = true ↔
      now > seconds) := by
  constructor
  · rfl
  · unfold wrapper initThrottle
    by_cases hgt : now - (0 : Int) > seconds
    · rw [if_pos (Or.inr hgt)]
      exact ⟨fun _ => by omega, fun _ => rfl⟩
    · have hcond : ¬ (false = true ∨ now - (0 : Int) > seconds) := by
        rintro (hf | hg)
        · exact Bool.false_ne_true hf
        · exact hgt hg
      rw [if_neg hcond]
      refine ⟨fun hf => absurd hf Bool.false_ne_true, fun hg => absurd ?_ hgt⟩
      omega

/-- C7: for retry counts `r1 < r2` with the same base whose deterministic
components are separated by at least 1 (`b * 2 ^ r1 + 1 ≤ b * 2 ^ r2`),
every pair of jitters in [0, 1) gives a strictly larger backoff at `r2`
than at `r1`. -/
theorem backoff_separated_monotone (r1 r2 : Nat) (b j1 j2 : Rat)
    (hr : r1 < r2) (hsep : b * 2 ^ r1 + 1 ≤ b * 2 ^ r2)
    (hj10 : 0 ≤ j1) (hj11 : j1 < 1) (hj20 : 0 ≤ j2) (hj21 : j2 < 1) :
    backoff_seconds r1 b j1 < backoff_seconds r2 b j2 := by
  unfold backoff_seconds
  linarith

/-- Witness for C7 at `r1 = 0`, `r2 = 1`, `b = 1`, `j1 = 1/2`, `j2 = 0`. -/
theorem backoff_separated_monotone_witness :
    ((0 : Nat) < 1 ∧ (1 : Rat) * 2 ^ (0 : Nat) + 1 ≤ (1 : Rat) * 2 ^ (1 : Nat) ∧
     (0 : Rat) ≤ 1 / 2 ∧ (1 / 2 : Rat) < 1 ∧ (0 : Rat) ≤ 0 ∧ (0 : Rat) < 1) ∧
    backoff_seconds 0 1 (1 / 2) < backoff_seconds 1 1 0 :=
  ⟨⟨by norm_num, by norm_num, by norm_num, by norm_num, by norm_num, by norm_num⟩,
   backoff_separated_monotone 0 1 1 (1 / 2) 0 (by norm_num) (by norm_num)
     (by norm_num) (by norm_num) (by norm_num) (by norm_num)⟩

/-- C8: constructing `BlinkAuthenticationException(("E401", "auth failed"))`
yields `errid = "E401"`, `message = "auth failed"`, and an instance that
is-a `BlinkException` (its `toBlinkException` projection is exactly the
`BlinkException` built from the same pair); in general either constructor
stores the pair's first component as `errid` and second as `message`. -/
theorem blink_exception_fields :
    (BlinkAuthenticationException.ofPair ("E401", "auth failed")).errid = "E401" ∧
    (BlinkAuthenticationException.ofPair ("E401", "auth failed")).message =
      "auth failed" ∧
    (BlinkAuthenticationException.ofPair ("E401", "auth failed")).toBlinkException =
      BlinkException.ofPair ("E401", "auth failed") ∧
    ∀ p : String × String,
      (BlinkException.ofPair p).errid = p.1 ∧
      (BlinkException.ofPair p).message = p.2 ∧
      (BlinkAuthenticationException.ofPair p).errid = p.1 ∧
      (BlinkAuthenticationException.ofPair p).message = p.2 :=
  ⟨rfl, rfl, rfl, fun _ => ⟨rfl, rfl, rfl, rfl⟩⟩

/-- C10: `time_to_seconds` returns the bool `False` (not an exception,
not `None`) on every unparsable timestamp, and on every parsable one
returns the integer `timegm(dtime.timetuple())` of the parsed time. -/
theorem time_to_seconds_total_spec {D : Type} (isoparse : String → Option D)
    (timegm_timetuple : D → Int) (ts : String) :
    (isoparse ts = Option.none →
      time_to_seconds isoparse timegm_timetuple ts = Sum.inr false) ∧
    (∀ d : D, isoparse ts = Option.some d →
      time_to_seconds isoparse timegm_timetuple ts =
        Sum.inl (timegm_timetuple d)) := by
  constructor
  · intro h
    unfold time_to_seconds
    rw [h]
  · intro d h
    unfold time_to_seconds
    rw [h]

/-- Witness for C10 with a parser recognizing only the epoch timestamp. -/
theorem time_to_seconds_total_spec_witness :
    ((fun s => if s = "1970-01-01T00:00:00" then Option.some 0 else
        (Option.none : Option Int)) "bad" = Option.none) ∧
    time_to_seconds
      (fun s => if s = "1970-01-01T00:00:00" then Option.some 0 else
        (Option.none : Option Int))
      (fun d => d) "bad" = Sum.inr false :=
  ⟨by decide,
   (time_to_seconds_total_spec
     (fun s => if s = "1970-01-01T00:00:00" then Option.some 0 else
       (Option.none : Option Int))
     (fun d => d) "bad").1 (by decide)⟩

/-- One wrapper call never decreases `last_call` when the clock reading is
at or after the stored timestamp, and never moves it past the reading. -/
theorem wrapper_state_last_call_between {e a : Type} (st : Throttle)
    (force : Bool) (now : Int) (op : Except e a) (h : st.last_call ≤ now) :
    st.last_call ≤ (wrapper st force now op).state.last_call ∧
    (wrapper st force now op).state.last_call ≤ now := by
  unfold wrapper
  by_cases hc : force = true ∨ now - st.last_call > st.throttle_time
  · rw [if_pos hc]
    exact ⟨h, le_refl now⟩
  · rw [if_neg hc]
    exact ⟨le_refl _, h⟩

/-- Weakening the head of a non-decreasing chain of clock readings. -/
theorem chain_le_of_le (x y : Int) (l : List Int) (hxy : x ≤ y)
    (h : List.Chain (fun u v => u ≤ v) y l) :
    List.Chain (fun u v => u ≤ v) x l := by
  cases h with
  | nil => exact List.Chain.nil
  | cons hr hc => exact List.Chain.cons (le_trans hxy hr) hc

/-- The trace of `last_call` values along a run is bounded below by any
`x ≤ st.last_call`, link by link, when the clock readings form a
non-decreasing chain starting at or after `st.last_call`. -/
theorem runThrottle_chain {e a : Type} :
    ∀ (calls : List (Bool × Int × Except e a)) (st : Throttle) (x : Int),
      x ≤ st.last_call →
      List.Chain (fun u v => u ≤ v) st.last_call
        (calls.map (fun c => c.2.1)) →
      List.Chain (fun u v => u ≤ v) x
        ((runThrottle st calls).map Throttle.last_call) := by
  intro calls
  induction calls with
  | nil =>
    intro st x hx _
    exact List.Chain.cons hx List.Chain.nil
  | cons c cs ih =>
    intro st x hx h
    cases h with
    | cons hr hc =>
      have hb := wrapper_state_last_call_between st c.1 c.2.1 c.2.2 hr
      refine List.Chain.cons hx ?_
      exact ih ((wrapper st c.1 c.2.1 c.2.2).state) st.last_call hb.1
        (chain_le_of_le _ _ _ hb.2 hc)

/-- The trace of `last_call` values along a run is itself a non-decreasing
chain, given clock readings forming a non-decreasing chain starting at or
after the stored timestamp. -/
theorem runThrottle_chain_of_chain {e a : Type} (st : Throttle)
    (calls : List (Bool × Int × Except e a))
    (h : List.Chain (fun u v => u ≤ v) st.last_call
      (calls.map (fun c => c.2.1))) :
    List.Chain' (fun u v => u ≤ v)
      ((runThrottle st calls).map Throttle.last_call) := by
  have h2 := runThrottle_chain calls st st.last_call (le_refl _) h
  cases calls with
  | nil => exact List.chain'_singleton _
  | cons c cs =>
    have heq : (runThrottle st (c :: cs)).map Throttle.last_call =
        st.last_call :: ((runThrottle ((wrapper st c.1 c.2.1 c.2.2).state)
          cs).map Throttle.last_call) := rfl
    rw [heq] at h2 ⊢
    exact (List.chain_cons.mp h2).2

/-- C9: under a non-decreasing time source (readings are epoch seconds,
hence nonnegative, and never go backward), the `last_call` timestamp of
one throttle instance is monotonically non-decreasing over its lifetime:
the trace of states from construction through any sequence of throttled,
permitted, or forced invocations has non-decreasing `last_call`. -/
theorem throttle_last_call_monotone {e a : Type} (seconds : Int)
    (calls : List (Bool × Int × Except e a))
    (h0 : ∀ c ∈ calls, 0 ≤ c.2.1)
    (hmono : List.Chain' (fun u v => u ≤ v) (calls.map (fun c => c.2.1))) :
    List.Chain' (fun u v => u ≤ v)
      ((runThrottle (initThrottle seconds) calls).map Throttle.last_call) := by
  refine runThrottle_chain_of_chain (initThrottle seconds) calls ?_
  cases calls with
  | nil => exact List.Chain.nil
  | cons c cs =>
    refine List.Chain.cons ?_ ?_
    · exact h0 c (List.mem_cons_self c cs)
    · exact hmono

/-- Witness for C9: three invocations (a permitted one, a forced one at
zero elapsed, and a throttled one) with a non-decreasing clock. -/
theorem throttle_last_call_monotone_witness :
    ((∀ c ∈ ([(false, 5, Except.ok 1), (true, 7, Except.error 0),
        (false, 8, Except.ok 2)] : List (Bool × Int × Except Nat Nat)),
        0 ≤ c.2.1) ∧
     List.Chain' (fun u v => u ≤ v)
       (([(false, 5, Except.ok 1), (true, 7, Except.error 0),
         (false, 8, Except.ok 2)] :
           List (Bool × Int × Except Nat Nat)).map (fun c => c.2.1))) ∧
    List.Chain' (fun u v => u ≤ v)
      ((runThrottle (initThrottle 10)
        ([(false, 5, Except.ok 1), (true, 7, Except.error 0),
          (false, 8, Except.ok 2)] :
            List (Bool × Int × Except Nat Nat))).map Throttle.last_call) :=
  ⟨⟨by decide,
    List.Chain.cons (by decide) (List.Chain.cons (by decide) List.Chain.nil)⟩,
   throttle_last_call_monotone 10 _ (by decide)
     (List.Chain.cons (by decide) (List.Chain.cons (by decide) List.Chain.nil))⟩

end Claims
